import Mathlib

/-!
Verification of the LatchPac Validator 3000 firmware core: the SWD
bit-bang host (`components/swd_programmer/src/swd_host.c`) and the
production test sequencer (`components/test_sequencer/src/test_logic.c`).

The embedding is transaction-level: GPIO bit I/O is abstracted into
per-iteration environment responses (the values the target would put on
the wire), wall-clock time into an environment-supplied sequence of
timer readings (one per `esp_timer_get_time()` call made by the code
under analysis), and GPIO writes on the simulated-button lines into an
explicit event trace.  All definitions follow the non-mock
(`MOCK_HARDWARE_MODE` undefined), direct-wire build of the C source.
-/

namespace LatchPac

/-! ## Constants (swd_host.c / test_logic.h) -/

def SWD_MAX_RETRIES : Nat := 3
def SWD_WAIT_RETRIES : Nat := 8
def SWD_WAIT_TIMEOUT_US : Int := 200000
def SWD_IDCODE_STM32G030 : Nat := 0x0BC11477

def TEST_TIMEOUT_MS : Int := 5000
def SETTLE_MS : Nat := 500
def SAFETY_POLL_MS : Nat := 20

/-! ## Status enumerations (swd_host.h / test_logic.h) -/

/-- Embedding of `swd_status_t`. -/
inductive SwdStatus where
  | ok
  | ackWait
  | ackFault
  | parityError
  | timeout
  | error
deriving DecidableEq, Repr

/-- Embedding of `test_result_t`. -/
inductive TestResult where
  | pass
  | failSafetyOpen
  | failStuckOn
  | failNoLatch
  | failStuckLatched
  | failSwdError
  | failTimeout
  | failIncomplete
  | failSwdNoTarget
  | failSwdWrongId
  | failSwdBusError
deriving DecidableEq, Repr

/-! ## Bit/Frame codec (swd_host.c lines 121-135, 225-233) -/

/-- Embedding of `swd_request_byte`: packs Start=1, APnDP, RnW, A2, A3,
parity, Stop=0, Park=1 into an 8-bit frame, LSB-first transmission
order.  All callers pass `APnDP`, `RnW` in {0,1}. -/
def swd_request_byte (APnDP RnW addr : Nat) : Nat :=
  let a2 := (addr >>> 2) &&& 1
  let a3 := (addr >>> 3) &&& 1
  let parity := APnDP ^^^ RnW ^^^ a2 ^^^ a3
  (1 <<< 0) ||| (APnDP <<< 1) ||| (RnW <<< 2) ||| (a2 <<< 3) |||
    (a3 <<< 4) ||| (parity <<< 5) ||| (0 <<< 6) ||| (1 <<< 7)

/-- Embedding of `parity32`: XOR-fold of a 32-bit word down to one bit. -/
def parity32 (v : Nat) : Nat :=
  let v1 := v ^^^ (v >>> 16)
  let v2 := v1 ^^^ (v1 >>> 8)
  let v3 := v2 ^^^ (v2 >>> 4)
  let v4 := v3 ^^^ (v3 >>> 2)
  let v5 := v4 ^^^ (v4 >>> 1)
  v5 &&& 1

/-! ## SWD failure classification (test_logic.c lines 152-182) -/

/-- Embedding of `classify_swd_failure` (the argument is passed as the
status/idcode pair of the `swd_verify_result_t`). -/
def classify_swd_failure (status : SwdStatus) (idcode : Nat) : TestResult :=
  if status = SwdStatus.ok ∧ idcode ≠ SWD_IDCODE_STM32G030 then
    TestResult.failSwdWrongId
  else
    match status with
    | SwdStatus.ok => TestResult.failSwdError
    | SwdStatus.error => TestResult.failSwdNoTarget
    | SwdStatus.ackFault => TestResult.failSwdBusError
    | SwdStatus.parityError => TestResult.failSwdBusError
    | SwdStatus.ackWait => TestResult.failSwdBusError
    | SwdStatus.timeout => TestResult.failSwdBusError

/-- The classification as the specification words it (section 4.5 of the
design document), keyed on whether the identifier matches.  Used as the
comparison point for the refinement claim about `classify_swd_failure`. -/
def classifySpec (status : SwdStatus) (idMatches : Bool) : TestResult :=
  match status, idMatches with
  | SwdStatus.ok, false => TestResult.failSwdWrongId
  | SwdStatus.ok, true => TestResult.failSwdError
  | SwdStatus.error, _ => TestResult.failSwdNoTarget
  | SwdStatus.ackFault, _ => TestResult.failSwdBusError
  | SwdStatus.parityError, _ => TestResult.failSwdBusError
  | SwdStatus.ackWait, _ => TestResult.failSwdBusError
  | SwdStatus.timeout, _ => TestResult.failSwdBusError

/-! ## Theorems: codec and classification -/

/-- C8: for all 4-bit combinations of {apNotDp, readNotWrite, addr-bit2,
addr-bit3}, `swd_request_byte` packs, in LSB-first transmission order,
start=1, apNotDp, readNotWrite, addr-bit2, addr-bit3, parity, stop=0,
park=1, where the parity bit equals the XOR of exactly those four input
bits. -/
theorem swd_request_byte_layout :
    ∀ a : Fin 2, ∀ r : Fin 2, ∀ addr : Fin 16,
      (swd_request_byte a.val r.val addr.val) &&& 1 = 1 ∧
      ((swd_request_byte a.val r.val addr.val) >>> 1) &&& 1 = a.val ∧
      ((swd_request_byte a.val r.val addr.val) >>> 2) &&& 1 = r.val ∧
      ((swd_request_byte a.val r.val addr.val) >>> 3) &&& 1 = (addr.val >>> 2) &&& 1 ∧
      ((swd_request_byte a.val r.val addr.val) >>> 4) &&& 1 = (addr.val >>> 3) &&& 1 ∧
      ((swd_request_byte a.val r.val addr.val) >>> 5) &&& 1 =
        (a.val ^^^ r.val ^^^ ((addr.val >>> 2) &&& 1) ^^^ ((addr.val >>> 3) &&& 1)) ∧
      ((swd_request_byte a.val r.val addr.val) >>> 6) &&& 1 = 0 ∧
      ((swd_request_byte a.val r.val addr.val) >>> 7) &&& 1 = 1 ∧
      swd_request_byte a.val r.val addr.val < 256 := by
  decide

/-! ## SWD transaction engine (swd_host.c lines 281-421)

The engine is modelled one loop iteration at a time.  The environment
supplies, for the i-th iteration of the WAIT-retry loop, the 3-bit ACK
field the target answers with, the 32 data bits and the parity bit the
target would send on an OK'd read, and the value `esp_timer_get_time()`
returns at the deadline check inside the WAIT branch.  `t0` is the timer
reading taken at function entry, from which the wall-clock deadline is
computed once.  The result pairs the returned `swd_status_t` with the
word stored into the caller's `*data` buffer (`none` when the code
leaves the buffer untouched; FAULT-branch ABORT bit traffic and the
error-branch line reset have no observable effect at this level). -/

/-- One iteration's worth of target-side responses for `swd_transfer`. -/
structure XferResp where
  ack : Nat
  rdata : Nat
  rparity : Nat
  tWait : Int
deriving Repr

/-- The `for (wait_retry = 0; wait_retry < SWD_WAIT_RETRIES; ...)` loop of
`swd_transfer`; `i` indexes environment responses, `fuel` is the number
of loop iterations still allowed. -/
def swdTransferLoop (RnW : Bool) (deadline : Int) (resp : Nat → XferResp) :
    Nat → Nat → SwdStatus × Option Nat
  | _, 0 => (SwdStatus.ackWait, none)
  | i, fuel + 1 =>
    let r := resp i
    if r.ack = 1 then
      if RnW then
        let val := r.rdata % 2 ^ 32
        if r.rparity % 2 ≠ parity32 val then (SwdStatus.parityError, none)
        else (SwdStatus.ok, some val)
      else (SwdStatus.ok, none)
    else if r.ack = 2 then
      if r.tWait > deadline then (SwdStatus.timeout, none)
      else swdTransferLoop RnW deadline resp (i + 1) fuel
    else if r.ack = 4 then (SwdStatus.ackFault, none)
    else (SwdStatus.error, none)

/-- Embedding of `swd_transfer`: decodes RnW from the request byte,
computes the wall-clock deadline once at entry, and runs the WAIT-retry
loop. -/
def swd_transfer (request : Nat) (t0 : Int) (resp : Nat → XferResp) :
    SwdStatus × Option Nat :=
  swdTransferLoop (decide ((request >>> 2) &&& 1 = 1))
    (t0 + SWD_WAIT_TIMEOUT_US) resp 0 SWD_WAIT_RETRIES

/-! ## Loop lemmas for the transaction engine -/

/-- If every remaining response is a WAIT observed within the deadline,
the loop runs out of retries and reports `ackWait`. -/
lemma swdTransferLoop_all_wait (RnW : Bool) (deadline : Int)
    (resp : Nat → XferResp) :
    ∀ fuel i, (∀ k, k < fuel → (resp (i + k)).ack = 2 ∧
        (resp (i + k)).tWait ≤ deadline) →
      swdTransferLoop RnW deadline resp i fuel = (SwdStatus.ackWait, none) := by
  intro fuel
  induction fuel with
  | zero => intro i _; rfl
  | succ n ih =>
    intro i h
    have h0 := h 0 (Nat.succ_pos n)
    simp only [Nat.add_zero] at h0
    have hnot : ¬ (resp i).tWait > deadline := not_lt.mpr h0.2
    simp only [swdTransferLoop, h0.1, hnot]
    norm_num
    exact ih (i + 1) (fun k hk => by
      have := h (k + 1) (Nat.succ_lt_succ hk)
      simpa [Nat.add_comm, Nat.add_assoc, Nat.add_left_comm] using this)

/-- If the j-th response (within the retry budget) is a WAIT observed past
the deadline, and every earlier response is a WAIT within the deadline,
the loop returns `timeout`. -/
lemma swdTransferLoop_timeout (RnW : Bool) (deadline : Int)
    (resp : Nat → XferResp) :
    ∀ fuel i j, j < fuel →
      (∀ k, k < j → (resp (i + k)).ack = 2 ∧ (resp (i + k)).tWait ≤ deadline) →
      (resp (i + j)).ack = 2 → (resp (i + j)).tWait > deadline →
      swdTransferLoop RnW deadline resp i fuel = (SwdStatus.timeout, none) := by
  intro fuel
  induction fuel with
  | zero => intro i j hj; omega
  | succ n ih =>
    intro i j hj hpre hack htime
    cases j with
    | zero =>
      simp only [Nat.add_zero] at hack htime
      simp only [swdTransferLoop, hack, htime]
      norm_num
    | succ m =>
      have h0 := hpre 0 (Nat.succ_pos m)
      simp only [Nat.add_zero] at h0
      have hnot : ¬ (resp i).tWait > deadline := not_lt.mpr h0.2
      simp only [swdTransferLoop, h0.1, hnot]
      norm_num
      exact ih (i + 1) m (Nat.lt_of_succ_lt_succ hj)
        (fun k hk => by
          have := hpre (k + 1) (Nat.succ_lt_succ hk)
          simpa [Nat.add_comm, Nat.add_assoc, Nat.add_left_comm] using this)
        (by simpa [Nat.add_comm, Nat.add_assoc, Nat.add_left_comm] using hack)
        (by simpa [Nat.add_comm, Nat.add_assoc, Nat.add_left_comm] using htime)

/-- Whatever the environment does, the loop populates the caller's data
word only when it returns `ok`. -/
lemma swdTransferLoop_data_only_ok (RnW : Bool) (deadline : Int)
    (resp : Nat → XferResp) :
    ∀ fuel i, (swdTransferLoop RnW deadline resp i fuel).2 ≠ none →
      (swdTransferLoop RnW deadline resp i fuel).1 = SwdStatus.ok := by
  intro fuel
  induction fuel with
  | zero => intro i h; simp [swdTransferLoop] at h
  | succ n ih =>
    intro i h
    simp only [swdTransferLoop] at h ⊢
    split_ifs at h ⊢ <;>
      first
        | rfl
        | exact ih (i + 1) h
        | simp at h

/-! ## Theorems: transaction engine -/

/-- C1: a wall-clock deadline computed once at entry bounds the whole
WAIT-retry loop of `swd_transfer`: under a WAIT storm, if every retry
observes a time within the deadline the engine exhausts its
`SWD_WAIT_RETRIES` budget and returns AckWait, while the first retry that
observes a time past the deadline makes it return Timeout. -/
theorem swd_transfer_wait_deadline (request : Nat) (t0 : Int)
    (resp : Nat → XferResp)
    (hwait : ∀ i, i < SWD_WAIT_RETRIES → (resp i).ack = 2) :
    ((∀ i, i < SWD_WAIT_RETRIES → (resp i).tWait ≤ t0 + SWD_WAIT_TIMEOUT_US) →
      swd_transfer request t0 resp = (SwdStatus.ackWait, none)) ∧
    (∀ j, j < SWD_WAIT_RETRIES →
      (∀ i, i < j → (resp i).tWait ≤ t0 + SWD_WAIT_TIMEOUT_US) →
      (resp j).tWait > t0 + SWD_WAIT_TIMEOUT_US →
      swd_transfer request t0 resp = (SwdStatus.timeout, none)) := by
  constructor
  · intro hin
    exact swdTransferLoop_all_wait _ _ resp SWD_WAIT_RETRIES 0
      (fun k hk => by simpa using ⟨hwait k hk, hin k hk⟩)
  · intro j hj hpre hlate
    exact swdTransferLoop_timeout _ _ resp SWD_WAIT_RETRIES 0 j hj
      (fun k hk => by simpa using ⟨hwait k (hk.trans hj), hpre k hk⟩)
      (by simpa using hwait j hj) (by simpa using hlate)

/-- C1 witness: with a target answering WAIT forever, all within the
deadline the engine returns AckWait; the theorem is applied at that
concrete environment. -/
theorem swd_transfer_wait_deadline_witness :
    swd_transfer 0xA5 0 (fun _ => ⟨2, 0, 0, 0⟩) = (SwdStatus.ackWait, none) :=
  (swd_transfer_wait_deadline 0xA5 0 (fun _ => ⟨2, 0, 0, 0⟩)
    (fun _ _ => rfl)).1 (fun _ _ => by norm_num [SWD_WAIT_TIMEOUT_US])

/-- C6: for a read transaction acknowledged OK, the engine checks the
received parity bit against the recomputed parity of the 32 received
data bits: a mismatch makes `swd_transfer` return ParityError with the
caller's data word not populated, a match returns Ok with the word; and
on any non-Ok status the data word is never populated. -/
theorem swd_transfer_read_parity (request : Nat) (t0 : Int)
    (resp : Nat → XferResp) :
    ((swd_transfer request t0 resp).2 ≠ none →
      (swd_transfer request t0 resp).1 = SwdStatus.ok) ∧
    (∀ j, j < SWD_WAIT_RETRIES →
      (∀ i, i < j → (resp i).ack = 2 ∧
        (resp i).tWait ≤ t0 + SWD_WAIT_TIMEOUT_US) →
      (resp j).ack = 1 → (request >>> 2) &&& 1 = 1 →
      ((resp j).rparity % 2 ≠ parity32 ((resp j).rdata % 2 ^ 32) →
        swd_transfer request t0 resp = (SwdStatus.parityError, none)) ∧
      ((resp j).rparity % 2 = parity32 ((resp j).rdata % 2 ^ 32) →
        swd_transfer request t0 resp =
          (SwdStatus.ok, some ((resp j).rdata % 2 ^ 32)))) := by
  constructor
  · exact swdTransferLoop_data_only_ok _ _ resp SWD_WAIT_RETRIES 0
  · intro j hj hpre hack hrnw
    have key : ∀ fuel i j', j' < fuel →
        (∀ k, k < j' → (resp (i + k)).ack = 2 ∧
          (resp (i + k)).tWait ≤ t0 + SWD_WAIT_TIMEOUT_US) →
        (resp (i + j')).ack = 1 →
        swdTransferLoop true (t0 + SWD_WAIT_TIMEOUT_US) resp i fuel =
          (if (resp (i + j')).rparity % 2 = parity32 ((resp (i + j')).rdata % 2 ^ 32)
            then (SwdStatus.ok, some ((resp (i + j')).rdata % 2 ^ 32))
            else (SwdStatus.parityError, none)) := by
      intro fuel
      induction fuel with
      | zero => intro i j' hcontra; omega
      | succ n ih =>
        intro i j' hjn hpre' hack'
        cases j' with
        | zero =>
          simp only [Nat.add_zero] at hack'
          simp only [swdTransferLoop, hack']
          norm_num [Nat.add_zero]
        | succ m =>
          have h0 := hpre' 0 (Nat.succ_pos m)
          simp only [Nat.add_zero] at h0
          have hnot : ¬ (resp i).tWait > t0 + SWD_WAIT_TIMEOUT_US :=
            not_lt.mpr h0.2
          have hne1 : (resp i).ack ≠ 1 := by omega
          have hne4 : (resp i).ack ≠ 4 := by omega
          simp only [swdTransferLoop, h0.1, hnot, hne1, hne4]
          norm_num
          have := ih (i + 1) m (Nat.lt_of_succ_lt_succ hjn)
            (fun k hk => by
              have := hpre' (k + 1) (Nat.succ_lt_succ hk)
              simpa [Nat.add_comm, Nat.add_assoc, Nat.add_left_comm] using this)
            (by simpa [Nat.add_comm, Nat.add_assoc, Nat.add_left_comm] using hack')
          simpa [Nat.add_comm, Nat.add_assoc, Nat.add_left_comm] using this
    have hb : (decide ((request >>> 2) &&& 1 = 1)) = true := decide_eq_true hrnw
    have base := key SWD_WAIT_RETRIES 0 j hj
      (fun k hk => by simpa using hpre k hk) (by simpa using hack)
    simp only [Nat.zero_add] at base
    constructor
    · intro hmis
      simp only [swd_transfer, hb]
      rw [base, if_neg (by simpa using hmis)]
    · intro hmatch
      simp only [swd_transfer, hb]
      rw [base, if_pos hmatch]

/-- C6 witness: a read request whose first response is an OK'd read with
corrupted parity (33 received bits: data 0, parity bit 1) returns
ParityError and leaves the data word unpopulated; the theorem is applied
at that concrete environment. -/
theorem swd_transfer_read_parity_witness :
    swd_transfer 0xA5 0 (fun _ => ⟨1, 0, 1, 0⟩) = (SwdStatus.parityError, none) :=
  (((swd_transfer_read_parity 0xA5 0 (fun _ => ⟨1, 0, 1, 0⟩)).2 0
      (by norm_num [SWD_WAIT_RETRIES]) (fun i h => absurd h (Nat.not_lt_zero i))
      rfl rfl).1) (by decide)

/-! ## Detailed target verification (swd_host.c lines 754-804)

`swd_verify_target_detailed` is modelled at the attempt level: the
environment maps the (0-based) attempt index to the status/idcode pair
produced by that attempt's `swd_read_dp(DP_DPIDR, ...)` after the
reset / line-reset / JTAG-to-SWD / line-reset preamble.  The model also
returns the sequence of externally visible actions the routine performs,
so that the attempt count can be compared with the work actually done. -/

/-- Externally visible actions of the identification sequence. -/
inductive VerifyAction where
  | resetTarget
  | lineReset
  | jtagToSwd
  | readDpidr
  | abortRecovery
  | retryDelay
deriving DecidableEq, Repr

/-- Embedding of `swd_verify_result_t`. -/
structure SwdVerifyResult where
  status : SwdStatus
  idcode : Nat
  attempts : Nat
deriving DecidableEq, Repr

/-- The fixed preamble+read cycle performed by every attempt:
`swd_reset_target(); swd_line_reset(); swd_jtag_to_swd();
swd_line_reset();` followed by the DPIDR read. -/
def attemptCycle : List VerifyAction :=
  [VerifyAction.resetTarget, VerifyAction.lineReset, VerifyAction.jtagToSwd,
   VerifyAction.lineReset, VerifyAction.readDpidr]

/-- The `for (attempt = 1; attempt <= SWD_MAX_RETRIES; attempt++)` loop of
`swd_verify_target_detailed`; `fuel` counts the iterations still allowed
(`fuel = SWD_MAX_RETRIES - attempt + 1`). -/
def swd_verify_aux (env : Nat → SwdStatus × Nat) :
    Nat → Nat → SwdVerifyResult → SwdVerifyResult × List VerifyAction
  | _, 0, res => (res, [])
  | attempt, fuel + 1, _res =>
    let st := (env (attempt - 1)).1
    let id := (env (attempt - 1)).2
    let res1 : SwdVerifyResult := ⟨st, id, attempt⟩
    if st = SwdStatus.ok ∧ id = SWD_IDCODE_STM32G030 then
      (res1, attemptCycle)
    else if 1 ≤ fuel then
      let rec1 := swd_verify_aux env (attempt + 1) fuel res1
      (rec1.1, attemptCycle ++
        (if st = SwdStatus.ackFault then [VerifyAction.abortRecovery] else []) ++
        [VerifyAction.retryDelay] ++ rec1.2)
    else (res1, attemptCycle)

/-- Embedding of `swd_verify_target_detailed`: result initialised to
`{SWD_ERROR, 0, 0}`, then up to `SWD_MAX_RETRIES` attempts. -/
def swd_verify_target_detailed (env : Nat → SwdStatus × Nat) :
    SwdVerifyResult × List VerifyAction :=
  swd_verify_aux env 1 SWD_MAX_RETRIES ⟨SwdStatus.error, 0, 0⟩

/-- The action trace the specification predicts for `n` attempts: each
attempt runs the reset/line-reset/switch/read cycle; every attempt that
is followed by another is separated by abort recovery (exactly when that
attempt ended in a bus fault) and a short retry delay. -/
def verifyTraceSpec (env : Nat → SwdStatus × Nat) (n : Nat) : List VerifyAction :=
  ((List.range n).map (fun i =>
    attemptCycle ++
      (if i + 1 < n then
        (if (env i).1 = SwdStatus.ackFault then [VerifyAction.abortRecovery] else []) ++
          [VerifyAction.retryDelay]
      else []))).flatten

/-- C7: the `attempts` field of the result of `swd_verify_target_detailed`
equals the number of reset+line-reset+switch+read cycles actually
performed, is at least 1 and at most `SWD_MAX_RETRIES` (3); consecutive
attempts are separated by a retry delay, preceded by abort recovery
exactly when the prior attempt ended in a bus fault. -/
theorem swd_verify_target_detailed_attempts (env : Nat → SwdStatus × Nat) :
    1 ≤ (swd_verify_target_detailed env).1.attempts ∧
    (swd_verify_target_detailed env).1.attempts ≤ SWD_MAX_RETRIES ∧
    (swd_verify_target_detailed env).2 =
      verifyTraceSpec env (swd_verify_target_detailed env).1.attempts ∧
    List.count VerifyAction.readDpidr (swd_verify_target_detailed env).2 =
      (swd_verify_target_detailed env).1.attempts := by
  by_cases h0 : (env 0).1 = SwdStatus.ok ∧ (env 0).2 = SWD_IDCODE_STM32G030
  · simp [swd_verify_target_detailed, swd_verify_aux, h0, verifyTraceSpec,
      attemptCycle, List.range_succ, SWD_MAX_RETRIES]
  · by_cases h1 : (env 1).1 = SwdStatus.ok ∧ (env 1).2 = SWD_IDCODE_STM32G030
    · simp [swd_verify_target_detailed, swd_verify_aux, h0, h1, verifyTraceSpec,
        attemptCycle, List.range_succ, SWD_MAX_RETRIES]
      split_ifs <;> simp [List.count_cons]
    · by_cases h2 : (env 2).1 = SwdStatus.ok ∧ (env 2).2 = SWD_IDCODE_STM32G030 <;>
        · simp [swd_verify_target_detailed, swd_verify_aux, h0, h1, h2,
            verifyTraceSpec, attemptCycle, List.range_succ, SWD_MAX_RETRIES]
          split_ifs <;> simp [List.count_cons]

/-! ## Block memory read (swd_host.c lines 560-589)

`swd_mem_read_block` is modelled at the transaction level: the
environment maps the index of each SWD transaction the routine issues to
the status it completes with and (for reads) the word it returns.  The
model returns the final status, the list of words actually stored into
the caller's buffer (in order), and the list of transactions issued. -/

/-- Register addresses used by the block read path. -/
def AP_CSW : Nat := 0x00
def AP_TAR : Nat := 0x04
def AP_DRW : Nat := 0x0C
def DP_RDBUFF : Nat := 0x0C

/-- CSW value programmed for block reads:
`CSW_SIZE32 | CSW_ADDRINC_SGL | CSW_DBGSTAT`. -/
def CSW_BLOCK_READ : Nat := 2 ||| (1 <<< 4) ||| (1 <<< 6)

/-- One SWD transaction as issued by the memory layer. -/
inductive MemTxn where
  | wrAp (addr val : Nat)
  | rdApPosted (addr : Nat)
  | rdDp (addr : Nat)
deriving DecidableEq, Repr

/-- The `for (i = 0; i < word_count - 1; i++)` DRW read loop: `t` is the
index of the next transaction, `m` the number of loop iterations left.
On a failing read the routine returns that status at once; words read so
far stay in the buffer. -/
def drwReadLoop (xact : Nat → SwdStatus × Nat) :
    Nat → Nat → SwdStatus × List Nat × List MemTxn
  | _, 0 => (SwdStatus.ok, [], [])
  | t, m + 1 =>
    if (xact t).1 = SwdStatus.ok then
      let rest := drwReadLoop xact (t + 1) m
      (rest.1, (xact t).2 :: rest.2.1, MemTxn.rdApPosted AP_DRW :: rest.2.2)
    else ((xact t).1, [], [MemTxn.rdApPosted AP_DRW])

/-- Embedding of `swd_mem_read_block`: CSW programmed for auto-increment,
TAR set to the start address, one posted DRW read priming the pipeline
(its value discarded), `word_count - 1` further DRW reads, and a final
RDBUFF read for the last word.  `word_count == 0` returns success
without issuing anything. -/
def swd_mem_read_block (addr : Nat) (word_count : Nat)
    (xact : Nat → SwdStatus × Nat) : SwdStatus × List Nat × List MemTxn :=
  if word_count = 0 then (SwdStatus.ok, [], [])
  else
    let t0 : MemTxn := MemTxn.wrAp AP_CSW CSW_BLOCK_READ
    if (xact 0).1 ≠ SwdStatus.ok then ((xact 0).1, [], [t0])
    else
      let t1 : MemTxn := MemTxn.wrAp AP_TAR addr
      if (xact 1).1 ≠ SwdStatus.ok then ((xact 1).1, [], [t0, t1])
      else
        let t2 : MemTxn := MemTxn.rdApPosted AP_DRW
        if (xact 2).1 ≠ SwdStatus.ok then ((xact 2).1, [], [t0, t1, t2])
        else
          let body := drwReadLoop xact 3 (word_count - 1)
          if body.1 ≠ SwdStatus.ok then
            (body.1, body.2.1, [t0, t1, t2] ++ body.2.2)
          else
            let tEnd : MemTxn := MemTxn.rdDp DP_RDBUFF
            ((xact (3 + (word_count - 1))).1,
             body.2.1 ++
               (if (xact (3 + (word_count - 1))).1 = SwdStatus.ok then
                 [(xact (3 + (word_count - 1))).2] else []),
             [t0, t1, t2] ++ body.2.2 ++ [tEnd])

/-- Helper: the DRW read loop under an all-OK environment reads `m` words
through `m` posted DRW reads. -/
lemma drwReadLoop_all_ok (xact : Nat → SwdStatus × Nat)
    (hok : ∀ i, (xact i).1 = SwdStatus.ok) :
    ∀ m t, drwReadLoop xact t m =
      (SwdStatus.ok, (List.range m).map (fun i => (xact (t + i)).2),
        List.replicate m (MemTxn.rdApPosted AP_DRW)) := by
  intro m
  induction m with
  | zero => intro t; rfl
  | succ n ih =>
    intro t
    simp only [drwReadLoop, hok t, if_true, ih (t + 1), List.replicate_succ,
      Prod.mk.injEq, true_and, and_true]
    rw [List.range_succ_eq_map]
    simp [Function.comp, List.map_map, Nat.add_comm, Nat.add_assoc,
      Nat.add_left_comm]

/-- C9: `swd_mem_read_block` with word count 0 returns success with no
transactions issued; with word count n at least 1 (and an environment
completing every transaction OK) it writes CSW for auto-incrementing
32-bit transfers, writes TAR with the start address, issues one posted
DRW read to prime the pipeline followed by n-1 further DRW reads, and
finally one RDBUFF read -- so n = 1 issues exactly one posted read then
one RDBUFF read; the buffer receives the n-1 loop words then the RDBUFF
word. -/
theorem swd_mem_read_block_txns (addr n : Nat) (xact : Nat → SwdStatus × Nat) :
    swd_mem_read_block addr 0 xact = (SwdStatus.ok, [], []) ∧
    ((∀ i, (xact i).1 = SwdStatus.ok) → 1 ≤ n →
      swd_mem_read_block addr n xact =
        (SwdStatus.ok,
         (List.range (n - 1)).map (fun i => (xact (3 + i)).2) ++
           [(xact (3 + (n - 1))).2],
         [MemTxn.wrAp AP_CSW CSW_BLOCK_READ, MemTxn.wrAp AP_TAR addr] ++
           List.replicate n (MemTxn.rdApPosted AP_DRW) ++
           [MemTxn.rdDp DP_RDBUFF])) := by
  refine ⟨rfl, ?_⟩
  intro hok hn
  have hne : n ≠ 0 := by omega
  simp only [swd_mem_read_block, hne, if_false, hok 0, hok 1, hok 2,
    drwReadLoop_all_ok xact hok (n - 1) 3, hok (3 + (n - 1)),
    ne_eq, not_true_eq_false, if_pos rfl, ite_false, ite_true, Prod.mk.injEq]
  refine ⟨trivial, trivial, ?_⟩
  have hrep : List.replicate n (MemTxn.rdApPosted AP_DRW) =
      MemTxn.rdApPosted AP_DRW :: List.replicate (n - 1) (MemTxn.rdApPosted AP_DRW) := by
    cases n with
    | zero => omega
    | succ m => simp [List.replicate_succ]
  rw [hrep]
  simp

/-- C9 witness: a single-word block read under an all-OK environment
issues exactly CSW write, TAR write, one posted DRW read, one RDBUFF
read; the theorem is applied at that concrete environment. -/
theorem swd_mem_read_block_txns_witness :
    swd_mem_read_block 0x08000000 1 (fun i => (SwdStatus.ok, i)) =
      (SwdStatus.ok, [3],
       [MemTxn.wrAp AP_CSW CSW_BLOCK_READ, MemTxn.wrAp AP_TAR 0x08000000,
        MemTxn.rdApPosted AP_DRW, MemTxn.rdDp DP_RDBUFF]) := by
  have h := (swd_mem_read_block_txns 0x08000000 1 (fun i => (SwdStatus.ok, i))).2
    (fun _ => rfl) (le_refl 1)
  simpa using h

/-- C3: `classify_swd_failure` is total over every protocol status paired
with a matching or non-matching identifier, and coincides with the
specification mapping: Ok with a differing identifier yields SwdWrongId,
Error yields SwdNoTarget, AckFault/ParityError yield SwdBusError,
AckWait/Timeout yield SwdBusError, and the remaining combination (Ok with
a matching identifier) yields the generic SwdErrorGeneric. -/
theorem classify_swd_failure_total :
    ∀ (st : SwdStatus) (idcode : Nat),
      classify_swd_failure st idcode =
        classifySpec st (decide (idcode = SWD_IDCODE_STM32G030)) := by
  intro st idcode
  by_cases h : idcode = SWD_IDCODE_STM32G030 <;>
    cases st <;> simp [classify_swd_failure, classifySpec, h]

/-! ## Test sequencer (test_logic.c lines 123-147, 285-455)

`run_production_test_v2` is modelled for the non-mock build.  The
environment supplies the successive values returned by the sequencer's
own `esp_timer_get_time()` calls (index 0 is `t_start`, indices 1..6 the
six `deadline_expired` checks in order, the next unused index `t_end`),
the successive `LID_IS_OPEN()` polls, the successive `load_is_on()`
reads, and the `swd_verify_result_t` produced by
`swd_verify_target_detailed` (abstracted to its result; its own GPIO
traffic is on the SWD lines, not the simulated-button lines).  The
debug-powerup probe of step 8 touches neither the report outcome nor the
simulated-button lines and is informational only, so it contributes
nothing observable at this level.  Writes to the two simulated-button
GPIOs and the `swd_safe_state()` call are recorded as an event trace. -/

/-- Observable output actions of the sequencer: a write of `level` to
`PIN_SIM_START` or `PIN_SIM_STOP`, or a `swd_safe_state()` call. -/
inductive GpioEvent where
  | simStart (level : Nat)
  | simStop (level : Nat)
  | swdSafeState
deriving DecidableEq, Repr

/-- Embedding of `force_outputs_safe`: drive both simulated-button lines
HIGH (released). -/
def force_outputs_safe : List GpioEvent :=
  [GpioEvent.simStart 1, GpioEvent.simStop 1]

/-- Embedding of `deadline_expired`: `esp_timer_get_time() >= deadline_us`. -/
def deadline_expired (now deadline_us : Int) : Bool :=
  decide (now ≥ deadline_us)

/-- The chunk the `safe_delay_ms` loop removes from `remaining`:
`SAFETY_POLL_MS`, or all of it when less is left. -/
def safeChunk (remaining : Nat) : Nat :=
  if SAFETY_POLL_MS < remaining then SAFETY_POLL_MS else remaining

/-- The `while (remaining > 0)` loop of `safe_delay_ms`: one lid poll per
chunk waited; an open lid forces the outputs safe and aborts.  `li`
indexes the environment's successive lid polls.  The loop removes a
positive chunk from `remaining` each iteration, so structural fuel equal
to the initial `remaining` is enough; the fuel never runs out. -/
def safe_delay_aux (lid : Nat → Bool) : Nat → Nat → Nat → Bool × Nat × List GpioEvent
  | 0, li, _ => (true, li, [])
  | _ + 1, li, 0 => (true, li, [])
  | fuel + 1, li, r + 1 =>
    if lid li then (false, li + 1, force_outputs_safe)
    else safe_delay_aux lid fuel (li + 1) (r + 1 - safeChunk (r + 1))

/-- Embedding of `safe_delay_ms`: returns whether the wait completed (the
lid stayed closed), the next unused lid-poll index, and the emitted GPIO
events. -/
def safe_delay_ms (lid : Nat → Bool) (li : Nat) (total_ms : Nat) :
    Bool × Nat × List GpioEvent :=
  safe_delay_aux lid total_ms li total_ms

/-- Embedding of `test_report_t`. -/
structure TestReport where
  result : TestResult
  swd_idcode : Nat
  swd_attempts : Nat
  swd_status : SwdStatus
  duration_ms : Int
deriving DecidableEq, Repr

/-- Environment of one sequencer run (see the section comment). -/
structure Env where
  time : Nat → Int
  lid : Nat → Bool
  load : Nat → Bool
  swd : SwdVerifyResult

/-- The `done:` label of `run_production_test_v2`: force the outputs
safe, restore the SWD lines (`swd_safe_state()`), and record the elapsed
duration (`(uint32_t)((t_end - t_start) / 1000)`, modelled with C
truncating division and the 32-bit cast as a Euclidean remainder). -/
def finishReport (env : Env) (r : TestReport) (tEndIdx : Nat) (tStart : Int)
    (trace : List GpioEvent) : TestReport × List GpioEvent :=
  ({ r with duration_ms := (Int.tdiv (env.time tEndIdx - tStart) 1000) % (2 ^ 32 : Int) },
   trace ++ (force_outputs_safe ++ [GpioEvent.swdSafeState]))

/-- Initial report of `run_production_test_v2`: result PASS, idcode 0,
attempts 0, status `SWD_ERROR`, duration 0. -/
def report0 : TestReport :=
  ⟨TestResult.pass, 0, 0, SwdStatus.error, 0⟩

/-- Steps 7-8 of `run_production_test_v2`: deadline check before the SWD
verification, the verification itself with granular classification, and
the informational debug-powerup probe (which touches neither the report
outcome nor the simulated-button lines), then PASS. -/
def v2_stepSwd (env : Env) (tStart deadline : Int) (tr : List GpioEvent) :
    TestReport × List GpioEvent :=
  if deadline_expired (env.time 6) deadline then
    finishReport env { report0 with result := TestResult.failTimeout } 7 tStart tr
  else
    let report1 := { report0 with
      swd_idcode := env.swd.idcode,
      swd_attempts := env.swd.attempts,
      swd_status := env.swd.status }
    if env.swd.status = SwdStatus.ok ∧ env.swd.idcode = SWD_IDCODE_STM32G030 then
      finishReport env { report1 with result := TestResult.pass } 7 tStart tr
    else
      finishReport env { report1 with
        result := classify_swd_failure env.swd.status env.swd.idcode } 7 tStart tr

/-- Steps 5-6 of `run_production_test_v2`: deadline check, verify the
load is OFF after unlatching, final lid check before SWD.  `li` is the
next unused lid-poll index. -/
def v2_stepVerifyOff (env : Env) (tStart deadline : Int) (li : Nat)
    (tr : List GpioEvent) : TestReport × List GpioEvent :=
  if deadline_expired (env.time 5) deadline then
    finishReport env { report0 with result := TestResult.failTimeout } 6 tStart tr
  else if env.load 2 then
    finishReport env { report0 with result := TestResult.failStuckLatched } 6 tStart tr
  else if env.lid li then
    finishReport env { report0 with result := TestResult.failSafetyOpen } 6 tStart tr
  else
    v2_stepSwd env tStart deadline tr

/-- Step 4 of `run_production_test_v2`: deadline check, release both
simulated-button lines HIGH, safety-aware settle wait. -/
def v2_stepUnlatch (env : Env) (tStart deadline : Int) (li : Nat)
    (tr : List GpioEvent) : TestReport × List GpioEvent :=
  if deadline_expired (env.time 4) deadline then
    finishReport env { report0 with result := TestResult.failTimeout } 5 tStart tr
  else
    let tr2 := tr ++ [GpioEvent.simStart 1, GpioEvent.simStop 1]
    let d2 := safe_delay_ms env.lid li SETTLE_MS
    if d2.1 = false then
      finishReport env { report0 with result := TestResult.failSafetyOpen } 5 tStart
        (tr2 ++ d2.2.2)
    else
      v2_stepVerifyOff env tStart deadline d2.2.1 (tr2 ++ d2.2.2)

/-- Step 3 of `run_production_test_v2`: deadline check, verify the load
turned ON after latching. -/
def v2_stepVerifyOn (env : Env) (tStart deadline : Int) (li : Nat)
    (tr : List GpioEvent) : TestReport × List GpioEvent :=
  if deadline_expired (env.time 3) deadline then
    finishReport env { report0 with result := TestResult.failTimeout } 4 tStart tr
  else if env.load 1 = false then
    finishReport env { report0 with result := TestResult.failNoLatch } 4 tStart tr
  else
    v2_stepUnlatch env tStart deadline li tr

/-- Step 2 of `run_production_test_v2`: deadline check, drive both
simulated-button lines LOW, safety-aware settle wait. -/
def v2_stepLatch (env : Env) (tStart deadline : Int) :
    TestReport × List GpioEvent :=
  if deadline_expired (env.time 2) deadline then
    finishReport env { report0 with result := TestResult.failTimeout } 3 tStart []
  else
    let tr1 : List GpioEvent := [GpioEvent.simStart 0, GpioEvent.simStop 0]
    let d1 := safe_delay_ms env.lid 1 SETTLE_MS
    if d1.1 = false then
      finishReport env { report0 with result := TestResult.failSafetyOpen } 3 tStart
        (tr1 ++ d1.2.2)
    else
      v2_stepVerifyOn env tStart deadline d1.2.1 (tr1 ++ d1.2.2)

/-- Embedding of `run_production_test_v2` (non-mock build): entry lid
check, pre-check that the load is OFF, then the latch/unlatch/SWD steps;
every exit funnels through `finishReport` (the `done:` label).  The
sequential early-return body of the C function is staged as one Lean
definition per step. -/
def run_production_test_v2 (env : Env) : TestReport × List GpioEvent :=
  let tStart := env.time 0
  let deadline := tStart + TEST_TIMEOUT_MS * 1000
  if env.lid 0 then
    finishReport env { report0 with result := TestResult.failSafetyOpen } 1 tStart []
  else if deadline_expired (env.time 1) deadline then
    finishReport env { report0 with result := TestResult.failTimeout } 2 tStart []
  else if env.load 0 then
    finishReport env { report0 with result := TestResult.failStuckOn } 2 tStart []
  else
    v2_stepLatch env tStart deadline

/-- Final levels of the two simulated-button lines after replaying a
trace from the given initial levels (`PIN_SIM_START`, `PIN_SIM_STOP`). -/
def finalSimLevels : Nat × Nat → List GpioEvent → Nat × Nat
  | s, [] => s
  | (_, b), GpioEvent.simStart l :: rest => finalSimLevels (l, b) rest
  | (a, _), GpioEvent.simStop l :: rest => finalSimLevels (a, l) rest
  | s, GpioEvent.swdSafeState :: rest => finalSimLevels s rest

/-- Number of level changes a trace causes on the simulated-button lines
starting from the given levels. -/
def countTogglesAux : Nat → Nat → List GpioEvent → Nat
  | _, _, [] => 0
  | a, b, GpioEvent.simStart l :: rest =>
    (if l ≠ a then 1 else 0) + countTogglesAux l b rest
  | a, b, GpioEvent.simStop l :: rest =>
    (if l ≠ b then 1 else 0) + countTogglesAux a l rest
  | a, b, GpioEvent.swdSafeState :: rest => countTogglesAux a b rest

/-- Toggles counted from the idle (released = HIGH) state of both lines. -/
def simButtonToggles (tr : List GpioEvent) : Nat := countTogglesAux 1 1 tr

/-- Replaying a concatenated trace composes the level states. -/
lemma finalSimLevels_append (xs ys : List GpioEvent) :
    ∀ s, finalSimLevels s (xs ++ ys) = finalSimLevels (finalSimLevels s xs) ys := by
  induction xs with
  | nil => intro s; rfl
  | cons e rest ih =>
    intro s
    obtain ⟨a, b⟩ := s
    cases e <;> simp [finalSimLevels, ih]

/-- A run outcome that went through the unconditional cleanup: the trace
ends with the forced-safe events and the SWD safe-state restore, the
duration field records an elapsed time, and both simulated-button lines
finish at their released level whatever they were before. -/
def CleanExit (env : Env) (tStart : Int) (out : TestReport × List GpioEvent) : Prop :=
  (∃ pre, out.2 = pre ++ (force_outputs_safe ++ [GpioEvent.swdSafeState])) ∧
  (∃ j, out.1.duration_ms = (Int.tdiv (env.time j - tStart) 1000) % (2 ^ 32 : Int)) ∧
  (∀ a b, finalSimLevels (a, b) out.2 = (1, 1))

/-- `finishReport` always produces a clean exit. -/
lemma cleanExit_finishReport (env : Env) (r : TestReport) (k : Nat)
    (tStart : Int) (tr : List GpioEvent) :
    CleanExit env tStart (finishReport env r k tStart tr) := by
  refine ⟨⟨tr, rfl⟩, ⟨k, rfl⟩, ?_⟩
  intro a b
  simp only [finishReport, finalSimLevels_append]
  rfl

/-- Steps 7-8 always exit cleanly. -/
lemma cleanExit_stepSwd (env : Env) (tStart deadline : Int)
    (tr : List GpioEvent) :
    CleanExit env tStart (v2_stepSwd env tStart deadline tr) := by
  simp only [v2_stepSwd]
  split_ifs <;> apply cleanExit_finishReport

/-- Steps 5-6 always exit cleanly. -/
lemma cleanExit_stepVerifyOff (env : Env) (tStart deadline : Int) (li : Nat)
    (tr : List GpioEvent) :
    CleanExit env tStart (v2_stepVerifyOff env tStart deadline li tr) := by
  simp only [v2_stepVerifyOff]
  split_ifs <;> first
    | apply cleanExit_finishReport
    | apply cleanExit_stepSwd

/-- Step 4 always exits cleanly. -/
lemma cleanExit_stepUnlatch (env : Env) (tStart deadline : Int) (li : Nat)
    (tr : List GpioEvent) :
    CleanExit env tStart (v2_stepUnlatch env tStart deadline li tr) := by
  simp only [v2_stepUnlatch]
  split_ifs <;> first
    | apply cleanExit_finishReport
    | apply cleanExit_stepVerifyOff

/-- Step 3 always exits cleanly. -/
lemma cleanExit_stepVerifyOn (env : Env) (tStart deadline : Int) (li : Nat)
    (tr : List GpioEvent) :
    CleanExit env tStart (v2_stepVerifyOn env tStart deadline li tr) := by
  simp only [v2_stepVerifyOn]
  split_ifs <;> first
    | apply cleanExit_finishReport
    | apply cleanExit_stepUnlatch

/-- Step 2 always exits cleanly. -/
lemma cleanExit_stepLatch (env : Env) (tStart deadline : Int) :
    CleanExit env tStart (v2_stepLatch env tStart deadline) := by
  simp only [v2_stepLatch]
  split_ifs <;> first
    | apply cleanExit_finishReport
    | apply cleanExit_stepVerifyOn

/-! ## Theorems: test sequencer -/

/-- C2: every invocation of `run_production_test_v2`, on every exit path,
funnels through the cleanup step: the trace ends by forcing both
simulated-button lines to their released level and restoring the SWD
lines to the safe idle state, the elapsed duration is recorded in the
report, and whatever the prior line levels, both simulated-button lines
finish released -- no outcome leaves the outputs in a non-safe state. -/
theorem run_production_test_v2_cleanup (env : Env) :
    CleanExit env (env.time 0) (run_production_test_v2 env) := by
  simp only [run_production_test_v2]
  split_ifs <;> first
    | apply cleanExit_finishReport
    | apply cleanExit_stepLatch

/-- C5: if the safety interlock reports open at entry, the outcome is
SafetyOpen, the run goes straight to cleanup having touched nothing (the
trace is exactly the cleanup), and the simulated-button lines see zero
toggles from their released idle levels. -/
theorem run_production_test_v2_interlock_open (env : Env)
    (h : env.lid 0 = true) :
    (run_production_test_v2 env).1.result = TestResult.failSafetyOpen ∧
    (run_production_test_v2 env).2 =
      force_outputs_safe ++ [GpioEvent.swdSafeState] ∧
    simButtonToggles (run_production_test_v2 env).2 = 0 := by
  simp only [run_production_test_v2, h]
  norm_num [finishReport, simButtonToggles, countTogglesAux, force_outputs_safe]

/-- C5 witness: the theorem applied to a concrete environment whose lid
reads open at entry. -/
theorem run_production_test_v2_interlock_open_witness :
    (run_production_test_v2
      ⟨fun _ => 0, fun _ => true, fun _ => false,
        ⟨SwdStatus.error, 0, 0⟩⟩).1.result = TestResult.failSafetyOpen :=
  (run_production_test_v2_interlock_open
    ⟨fun _ => 0, fun _ => true, fun _ => false, ⟨SwdStatus.error, 0, 0⟩⟩ rfl).1

/-! ## Frame property of early exits (C10) -/

/-- The five outcomes produced before the SWD verification step. -/
def EarlyOutcome (r : TestResult) : Prop :=
  r = TestResult.failSafetyOpen ∨ r = TestResult.failStuckOn ∨
  r = TestResult.failNoLatch ∨ r = TestResult.failStuckLatched ∨
  r = TestResult.failTimeout

/-- The SWD diagnostic fields still hold their initial values. -/
def SwdFieldsInitial (out : TestReport × List GpioEvent) : Prop :=
  out.1.swd_idcode = 0 ∧ out.1.swd_attempts = 0 ∧
  out.1.swd_status = SwdStatus.error

/-- `finishReport` only touches the duration field. -/
lemma finishReport_result (env : Env) (r : TestReport) (k : Nat)
    (tStart : Int) (tr : List GpioEvent) :
    (finishReport env r k tStart tr).1.result = r.result := rfl

/-- `classify_swd_failure` only ever produces one of the four SWD failure
outcomes. -/
lemma classify_swd_failure_cases (st : SwdStatus) (id : Nat) :
    classify_swd_failure st id = TestResult.failSwdWrongId ∨
    classify_swd_failure st id = TestResult.failSwdNoTarget ∨
    classify_swd_failure st id = TestResult.failSwdBusError ∨
    classify_swd_failure st id = TestResult.failSwdError := by
  by_cases h : id = SWD_IDCODE_STM32G030 <;>
    cases st <;> simp [classify_swd_failure, h]

/-- Steps 7-8 keep the SWD fields initial whenever they produce an early
outcome (only their timeout branch does). -/
lemma frame_stepSwd (env : Env) (tStart deadline : Int) (tr : List GpioEvent)
    (h : EarlyOutcome (v2_stepSwd env tStart deadline tr).1.result) :
    SwdFieldsInitial (v2_stepSwd env tStart deadline tr) := by
  simp only [v2_stepSwd] at h ⊢
  split_ifs at h ⊢
  · exact ⟨rfl, rfl, rfl⟩
  · rcases h with h | h | h | h | h <;> simp [finishReport_result] at h
  · rw [finishReport_result] at h
    rcases classify_swd_failure_cases env.swd.status env.swd.idcode with c | c | c | c <;>
      rcases h with h | h | h | h | h <;> simp [c] at h

/-- Steps 5-6 keep the SWD fields initial on every early outcome. -/
lemma frame_stepVerifyOff (env : Env) (tStart deadline : Int) (li : Nat)
    (tr : List GpioEvent)
    (h : EarlyOutcome (v2_stepVerifyOff env tStart deadline li tr).1.result) :
    SwdFieldsInitial (v2_stepVerifyOff env tStart deadline li tr) := by
  simp only [v2_stepVerifyOff] at h ⊢
  split_ifs at h ⊢ <;>
    first
      | exact ⟨rfl, rfl, rfl⟩
      | exact frame_stepSwd env tStart deadline tr h

/-- Step 4 keeps the SWD fields initial on every early outcome. -/
lemma frame_stepUnlatch (env : Env) (tStart deadline : Int) (li : Nat)
    (tr : List GpioEvent)
    (h : EarlyOutcome (v2_stepUnlatch env tStart deadline li tr).1.result) :
    SwdFieldsInitial (v2_stepUnlatch env tStart deadline li tr) := by
  simp only [v2_stepUnlatch] at h ⊢
  split_ifs at h ⊢ <;>
    first
      | exact ⟨rfl, rfl, rfl⟩
      | exact frame_stepVerifyOff env tStart deadline _ _ h

/-- Step 3 keeps the SWD fields initial on every early outcome. -/
lemma frame_stepVerifyOn (env : Env) (tStart deadline : Int) (li : Nat)
    (tr : List GpioEvent)
    (h : EarlyOutcome (v2_stepVerifyOn env tStart deadline li tr).1.result) :
    SwdFieldsInitial (v2_stepVerifyOn env tStart deadline li tr) := by
  simp only [v2_stepVerifyOn] at h ⊢
  split_ifs at h ⊢ <;>
    first
      | exact ⟨rfl, rfl, rfl⟩
      | exact frame_stepUnlatch env tStart deadline li tr h

/-- Step 2 keeps the SWD fields initial on every early outcome. -/
lemma frame_stepLatch (env : Env) (tStart deadline : Int)
    (h : EarlyOutcome (v2_stepLatch env tStart deadline).1.result) :
    SwdFieldsInitial (v2_stepLatch env tStart deadline) := by
  simp only [v2_stepLatch] at h ⊢
  split_ifs at h ⊢ <;>
    first
      | exact ⟨rfl, rfl, rfl⟩
      | exact frame_stepVerifyOn env tStart deadline _ _ h

/-- C10: whenever `run_production_test_v2` exits before reaching the SWD
verification step (outcome SafetyOpen, StuckOn, NoLatch, StuckLatched or
Timeout), the report's SWD diagnostic fields still hold their initial
values: `swd_idcode = 0`, `swd_attempts = 0`, and `swd_status` is the
generic `SWD_ERROR`. -/
theorem run_production_test_v2_early_frame (env : Env)
    (h : (run_production_test_v2 env).1.result = TestResult.failSafetyOpen ∨
      (run_production_test_v2 env).1.result = TestResult.failStuckOn ∨
      (run_production_test_v2 env).1.result = TestResult.failNoLatch ∨
      (run_production_test_v2 env).1.result = TestResult.failStuckLatched ∨
      (run_production_test_v2 env).1.result = TestResult.failTimeout) :
    (run_production_test_v2 env).1.swd_idcode = 0 ∧
    (run_production_test_v2 env).1.swd_attempts = 0 ∧
    (run_production_test_v2 env).1.swd_status = SwdStatus.error := by
  have h2 : EarlyOutcome (run_production_test_v2 env).1.result := h
  suffices hs : SwdFieldsInitial (run_production_test_v2 env) by exact hs
  simp only [run_production_test_v2] at h2 ⊢
  split_ifs at h2 ⊢ <;>
    first
      | exact ⟨rfl, rfl, rfl⟩
      | exact frame_stepLatch env _ _ h2

/-- C10 witness: with the lid open at entry (outcome SafetyOpen) the SWD
fields of the report are still the initial ones; the theorem is applied
at that concrete environment. -/
theorem run_production_test_v2_early_frame_witness :
    (run_production_test_v2
      ⟨fun _ => 0, fun _ => true, fun _ => false,
        ⟨SwdStatus.ok, 0, 2⟩⟩).1.swd_idcode = 0 ∧
    (run_production_test_v2
      ⟨fun _ => 0, fun _ => true, fun _ => false,
        ⟨SwdStatus.ok, 0, 2⟩⟩).1.swd_attempts = 0 ∧
    (run_production_test_v2
      ⟨fun _ => 0, fun _ => true, fun _ => false,
        ⟨SwdStatus.ok, 0, 2⟩⟩).1.swd_status = SwdStatus.error :=
  run_production_test_v2_early_frame
    ⟨fun _ => 0, fun _ => true, fun _ => false, ⟨SwdStatus.ok, 0, 2⟩⟩
    (Or.inl (by decide))

/-! ## Deadline checks (C4) -/

/-- With the lid closed throughout, the safety-aware delay completes with
no events. -/
lemma safe_delay_aux_closed (lid : Nat → Bool) (h : ∀ i, lid i = false) :
    ∀ fuel li r, ∃ li2, safe_delay_aux lid fuel li r = (true, li2, []) := by
  intro fuel
  induction fuel with
  | zero => intro li r; exact ⟨li, rfl⟩
  | succ n ih =>
    intro li r
    cases r with
    | zero => exact ⟨li, rfl⟩
    | succ m =>
      simp only [safe_delay_aux, h li, Bool.false_eq_true, if_false]
      exact ih (li + 1) _

/-- With the lid closed throughout, `safe_delay_ms` completes with no
events. -/
lemma safe_delay_ms_closed (lid : Nat → Bool) (h : ∀ i, lid i = false)
    (li t : Nat) : ∃ li2, safe_delay_ms lid li t = (true, li2, []) :=
  safe_delay_aux_closed lid h t li t

/-- C4 (amended): the six deadline-checked sites of
`run_production_test_v2` -- before pre-check, latch, verify-on, unlatch,
verify-off and SWD verify -- each consult the deadline computed once at
entry, and expiry observed at any of them yields Timeout immediately (on
a run that is otherwise proceeding: lid closed, load behaving).  The
entry lid check, the final lid check, the debug probe and the cleanup do
not consult the deadline. -/
theorem run_production_test_v2_deadline_sites (env : Env)
    (hlid : ∀ i, env.lid i = false)
    (hload0 : env.load 0 = false) (hload1 : env.load 1 = true)
    (hload2 : env.load 2 = false)
    (j : Nat) (hj1 : 1 ≤ j) (hj6 : j ≤ 6)
    (hpre : ∀ i, 1 ≤ i → i < j →
      env.time i < env.time 0 + TEST_TIMEOUT_MS * 1000)
    (hexp : env.time j ≥ env.time 0 + TEST_TIMEOUT_MS * 1000) :
    (run_production_test_v2 env).1.result = TestResult.failTimeout := by
  obtain ⟨li1, hd1⟩ := safe_delay_ms_closed env.lid hlid 1 SETTLE_MS
  obtain ⟨li2, hd2⟩ := safe_delay_ms_closed env.lid hlid li1 SETTLE_MS
  have ht : deadline_expired (env.time j)
      (env.time 0 + TEST_TIMEOUT_MS * 1000) = true := decide_eq_true hexp
  have hf : ∀ i, 1 ≤ i → i < j → deadline_expired (env.time i)
      (env.time 0 + TEST_TIMEOUT_MS * 1000) = false := fun i h1 h2 =>
    decide_eq_false (not_le.mpr (hpre i h1 h2))
  interval_cases j
  · simp [run_production_test_v2, hlid, ht, finishReport_result]
  · simp [run_production_test_v2, v2_stepLatch, hlid, hload0,
      hf 1 (by norm_num) (by norm_num), ht, finishReport_result]
  · simp [run_production_test_v2, v2_stepLatch, v2_stepVerifyOn, hlid, hload0,
      hf 1 (by norm_num) (by norm_num), hf 2 (by norm_num) (by norm_num),
      hd1, ht, finishReport_result]
  · simp [run_production_test_v2, v2_stepLatch, v2_stepVerifyOn,
      v2_stepUnlatch, hlid, hload0, hload1,
      hf 1 (by norm_num) (by norm_num), hf 2 (by norm_num) (by norm_num),
      hf 3 (by norm_num) (by norm_num), hd1, ht, finishReport_result]
  · simp [run_production_test_v2, v2_stepLatch, v2_stepVerifyOn,
      v2_stepUnlatch, v2_stepVerifyOff, hlid, hload0, hload1,
      hf 1 (by norm_num) (by norm_num), hf 2 (by norm_num) (by norm_num),
      hf 3 (by norm_num) (by norm_num), hf 4 (by norm_num) (by norm_num),
      hd1, hd2, ht, finishReport_result]
  · simp [run_production_test_v2, v2_stepLatch, v2_stepVerifyOn,
      v2_stepUnlatch, v2_stepVerifyOff, v2_stepSwd, hlid, hload0, hload1,
      hload2,
      hf 1 (by norm_num) (by norm_num), hf 2 (by norm_num) (by norm_num),
      hf 3 (by norm_num) (by norm_num), hf 4 (by norm_num) (by norm_num),
      hf 5 (by norm_num) (by norm_num),
      hd1, hd2, ht, finishReport_result]

/-- C4 amended-claim witness: expiry observed at the first checked site
(the pre-check) yields Timeout; the theorem is applied at that concrete
environment. -/
theorem run_production_test_v2_deadline_sites_witness :
    (run_production_test_v2
      ⟨fun i => if i = 0 then 0 else 6000000, fun _ => false,
        fun i => decide (i = 1),
        ⟨SwdStatus.ok, SWD_IDCODE_STM32G030, 1⟩⟩).1.result =
      TestResult.failTimeout :=
  run_production_test_v2_deadline_sites
    ⟨fun i => if i = 0 then 0 else 6000000, fun _ => false,
      fun i => decide (i = 1), ⟨SwdStatus.ok, SWD_IDCODE_STM32G030, 1⟩⟩
    (fun _ => rfl) rfl rfl rfl 1 (le_refl 1) (by norm_num)
    (fun i h1 h2 => absurd (lt_of_le_of_lt h1 h2) (lt_irrefl 1))
    (by norm_num [TEST_TIMEOUT_MS])

/-- Environment for the C4 counterexample: every checked site sees a time
within the deadline, the target verifies fine, but by the time the run
ends the clock is far past the deadline. -/
def deadlineCexEnv : Env :=
  ⟨fun i => if i ≤ 6 then 0 else 10000000,
   fun _ => false,
   fun i => decide (i = 1),
   ⟨SwdStatus.ok, SWD_IDCODE_STM32G030, 1⟩⟩

/-- C4 counterexample: the claim that every state transition first checks
the deadline, with expiry at any point yielding Timeout immediately, is
false: on `deadlineCexEnv` all six checked sites observe times within
the deadline, the clock then passes the deadline before the run ends
(the final timer reading shows a 10000 ms run against a 5000 ms budget),
yet the outcome is Pass, not Timeout -- the transitions into the debug
probe and into Done never consult the deadline. -/
theorem run_production_test_v2_deadline_cex :
    (run_production_test_v2 deadlineCexEnv).1.result = TestResult.pass ∧
    (∀ i, i < 7 → 1 ≤ i → deadlineCexEnv.time i <
      deadlineCexEnv.time 0 + TEST_TIMEOUT_MS * 1000) ∧
    deadlineCexEnv.time 7 ≥ deadlineCexEnv.time 0 + TEST_TIMEOUT_MS * 1000 ∧
    (run_production_test_v2 deadlineCexEnv).1.duration_ms = 10000 := by
  refine ⟨by decide, by decide, by decide, by decide⟩

end LatchPac
